import Mathlib

/-
Verification development for the FeReader viewer state controller
(src/main.py).  The stateful FeReaderWindow methods are embedded as pure
functions on an explicit ViewerState record.  Python ints are modelled as
Int (or Nat where the source guards keep the value nonnegative), Python
floats as exact rationals, and external collaborators (the PDF engine, the
EPUB engine, the input dialogs) as explicit input data.  Message boxes and
widget painting have no tracked state; the fields below are exactly the
bookkeeping attributes the source mutates.
-/

namespace FeReader

/-- QImage modelled by its pixel dimensions. -/
structure Image where
  width : Nat
  height : Nat
deriving DecidableEq, Repr

/-- One entry of FeReaderWindow.pages: a PDF page number (the source appends
len(self.pages)) or an EPUB html fragment. -/
inductive Page where
  | raster (n : Nat)
  | html (content : String)
deriving DecidableEq, Repr

/-- The mutable attributes of FeReaderWindow that the claims are about,
initialised as in FeReaderWindow.__init__ lines 411-426. -/
structure ViewerState where
  current_book_type : Option String
  current_book_path : Option String
  current_book_title : String
  pages : List Page
  current_index : Nat
  current_font_size : Int
  base_font_size : Int
  current_zoom : ℚ
  pdf_images : List Image
  epub_temp_dir : Option String
  view_mode : String
  continuous_needs_build : Bool
  multi_layout : List Image
  single_label : Option Image
  one_page_checked : Bool
  all_pages_checked : Bool
  theme : String
  font_family : String
  language : String
deriving DecidableEq, Repr

/-- Python int(x) on a rational: truncation toward zero. -/
def pyInt (q : ℚ) : Int :=
  if q < 0 then -(Rat.floor (-q)) else Rat.floor q

/-- QImage.scaled with the keep-aspect flag: largest size fitting in the
requested box while preserving the width to height proportion. -/
def scaledKeepAspect (img : Image) (w h : Nat) : Image :=
  if img.width = 0 ∨ img.height = 0 then ⟨w, h⟩
  else if w * img.height ≤ h * img.width then ⟨w, w * img.height / img.width⟩
  else ⟨h * img.width / img.height, h⟩

/-- Scaling of one page image at a zoom factor, as in lines 977-985 and
1016-1024: target box is int(width * zoom) by int(height * zoom). -/
def scaleImage (img : Image) (zoom : ℚ) : Image :=
  scaledKeepAspect img (pyInt ((img.width : ℚ) * zoom)).toNat
    (pyInt ((img.height : ℚ) * zoom)).toNat

/-- FeReaderWindow._build_continuous_pdf_widgets (lines 972-992): rebuild the
stacked layout from pdf_images at the current zoom and clear the dirty flag. -/
def buildContinuous (s : ViewerState) : ViewerState :=
  let zoom := if s.current_zoom ≤ 0 then 1 else s.current_zoom
  { s with multi_layout := s.pdf_images.map (fun img => scaleImage img zoom),
           continuous_needs_build := false }

/-- FeReaderWindow._update_view (lines 996-1036).  Status bar and zoom label
updates touch no tracked state. -/
def updateView (s : ViewerState) : ViewerState :=
  if s.pages = [] then s
  else if s.current_book_type = some ("epub") then s
  else if s.current_book_type = some ("pdf") then
    if s.view_mode = "single" then
      if s.current_index < s.pdf_images.length then
        { s with single_label := some (scaleImage (s.pdf_images.getD s.current_index ⟨0, 0⟩)
            (if 0 < s.current_zoom then s.current_zoom else 1)) }
      else { s with single_label := none }
    else
      if s.continuous_needs_build then buildContinuous s else s
  else s

/-- FeReaderWindow.go_prev (lines 1038-1043). -/
def go_prev (s : ViewerState) : ViewerState :=
  if s.pages = [] then s
  else if 0 < s.current_index then updateView { s with current_index := s.current_index - 1 }
  else s

/-- FeReaderWindow.go_next (lines 1045-1050). -/
def go_next (s : ViewerState) : ViewerState :=
  if s.pages = [] then s
  else if s.current_index < s.pages.length - 1 then
    updateView { s with current_index := s.current_index + 1 }
  else s

/-- FeReaderWindow.go_to_page_dialog (lines 1052-1067).  The integer input
dialog itself enforces the range 1 .. page count on the typed value, modelled
by clamping; ok is false when the dialog is cancelled. -/
def go_to_page_dialog (s : ViewerState) (ok : Bool) (value : Int) : ViewerState :=
  if s.pages = [] then s
  else
    let max_page : Int := s.pages.length
    let v := max 1 (min value max_page)
    if ok then updateView { s with current_index := (v - 1).toNat } else s

/-- State mutation stage of FeReaderWindow.zoom_in (lines 1074-1083), before
the final _update_view call. -/
def zoomInStep (s : ViewerState) : ViewerState :=
  if s.current_book_type = some ("pdf") then
    let z := s.current_zoom + 15 / 100
    let z2 := if 3 < z then 3 else z
    if s.view_mode = "continuous" then
      { s with current_zoom := z2, continuous_needs_build := true }
    else { s with current_zoom := z2 }
  else
    let f := s.current_font_size + 1
    { s with current_font_size := if 40 < f then 40 else f }

/-- FeReaderWindow.zoom_in (lines 1071-1084). -/
def zoom_in (s : ViewerState) : ViewerState :=
  if s.pages = [] then s else updateView (zoomInStep s)

/-- State mutation stage of FeReaderWindow.zoom_out (lines 1089-1098). -/
def zoomOutStep (s : ViewerState) : ViewerState :=
  if s.current_book_type = some ("pdf") then
    let z := s.current_zoom - 15 / 100
    let z2 := if z < 1 / 2 then 1 / 2 else z
    if s.view_mode = "continuous" then
      { s with current_zoom := z2, continuous_needs_build := true }
    else { s with current_zoom := z2 }
  else
    let f := s.current_font_size - 1
    { s with current_font_size := if f < 8 then 8 else f }

/-- FeReaderWindow.zoom_out (lines 1086-1099). -/
def zoom_out (s : ViewerState) : ViewerState :=
  if s.pages = [] then s else updateView (zoomOutStep s)

/-- PDF branch mutation of FeReaderWindow.zoom_label_clicked
(lines 815-822): set zoom to value over 100, clamp to the closed range from
one half to three, mark the continuous layout dirty when in that mode. -/
def zoomLabelPdfStep (s : ViewerState) (value : Int) : ViewerState :=
  let z := (value : ℚ) / 100
  let z1 := if z < 1 / 2 then 1 / 2 else z
  let z2 := if 3 < z1 then 3 else z1
  if s.view_mode = "continuous" then
    { s with current_zoom := z2, continuous_needs_build := true }
  else { s with current_zoom := z2 }

/-- Reflowable branch mutation of FeReaderWindow.zoom_label_clicked
(lines 823-829): recompute the font size from the base size and clamp to
8 .. 40. -/
def zoomFontStep (s : ViewerState) (value : Int) : ViewerState :=
  let n := pyInt ((s.base_font_size : ℚ) * ((value : ℚ) / 100))
  let n1 := if n < 8 then 8 else n
  { s with current_font_size := if 40 < n1 then 40 else n1 }

/-- FeReaderWindow.zoom_label_clicked (lines 791-831).  The integer dialog
enforces 50 .. 300 on the typed percentage, modelled by clamping. -/
def zoom_label_clicked (s : ViewerState) (ok : Bool) (value : Int) : ViewerState :=
  if s.pages = [] then s
  else if ok = false then s
  else
    let v := max 50 (min value 300)
    if s.current_book_type = some ("pdf") then updateView (zoomLabelPdfStep s v)
    else updateView (zoomFontStep s v)

/-- State mutation stage of FeReaderWindow.set_view_mode (lines 1106-1114). -/
def setViewModeStep (s : ViewerState) (mode : String) : ViewerState :=
  if mode = "single" then
    { s with view_mode := "single", one_page_checked := true, all_pages_checked := false }
  else if mode = "continuous" then
    { s with view_mode := "continuous", one_page_checked := false, all_pages_checked := true,
             continuous_needs_build := true }
  else s

/-- FeReaderWindow.set_view_mode (lines 1103-1117): early return unless the
current book is a PDF; an unknown mode string returns before _update_view. -/
def set_view_mode (s : ViewerState) (mode : String) : ViewerState :=
  if s.current_book_type ≠ some ("pdf") then s
  else if mode = "single" ∨ mode = "continuous" then updateView (setViewModeStep s mode)
  else s

/-- Behaviour of the PDF engine and the password prompt for one open attempt:
whether fitz.open reports the document as encrypted, what the password dialog
returned, whether doc.authenticate accepts it, and the outcome of rendering
each page in order (error means get_pixmap raises there). -/
structure PdfDocInput where
  needs_pass : Bool
  promptOk : Bool
  password : String
  authenticates : Bool
  pageResults : List (Except Unit Image)

/-- Outcome of fitz.open itself: error means the call raises. -/
abbrev PdfInput := Except Unit PdfDocInput

/-- Page loop of FeReaderWindow.load_pdf (lines 896-907): append each rendered
image; an engine failure raises, keeping the pages appended so far.  The Bool
records whether an exception escaped. -/
def loadPdfPages (s : ViewerState) : List (Except Unit Image) → ViewerState × Bool
  | [] => (s, false)
  | Except.error _ :: _ => (s, true)
  | Except.ok img :: rest =>
      loadPdfPages { s with pdf_images := s.pdf_images ++ [img],
                            pages := s.pages ++ [Page.raster s.pages.length] } rest

/-- FeReaderWindow.load_pdf (lines 868-908).  The attribute resets happen
before fitz.open; a cancelled or empty password and a wrong password return
normally after a message box, while engine failures raise. -/
def load_pdf (s : ViewerState) (inp : PdfInput) : ViewerState × Bool :=
  let s1 := { s with current_book_type := some ("pdf"), pages := [], pdf_images := [],
                     current_zoom := 1, view_mode := "single",
                     one_page_checked := true, all_pages_checked := false,
                     continuous_needs_build := true }
  match inp with
  | Except.error _ => (s1, true)
  | Except.ok d =>
      if d.needs_pass then
        if d.promptOk = false ∨ d.password = "" then (s1, false)
        else if d.authenticates = false then (s1, false)
        else loadPdfPages s1 d.pageResults
      else loadPdfPages s1 d.pageResults

/-- Behaviour of the EPUB engine for one open attempt: readOk is false when
epub.read_epub or the resource extraction loop raises; tempDir is the fresh
directory from tempfile.mkdtemp; docItems holds the processed html of each
document item in order (error means processing raises there). -/
structure EpubInput where
  readOk : Bool
  tempDir : String
  docItems : List (Except Unit String)

/-- Document item loop of FeReaderWindow.load_epub (lines 938-958): append the
processed html of each item; a failure raises, keeping pages appended so
far. -/
def loadEpubPages (s : ViewerState) : List (Except Unit String) → ViewerState × Bool
  | [] => (s, false)
  | Except.error _ :: _ => (s, true)
  | Except.ok htmlPage :: rest =>
      loadEpubPages { s with pages := s.pages ++ [Page.html htmlPage] } rest

/-- FeReaderWindow.load_epub (lines 920-961): reset book type, pages and font
size, replace the temp directory, load the document items, and append a
placeholder page when none were found. -/
def load_epub (s : ViewerState) (inp : EpubInput) : ViewerState × Bool :=
  let s1 := { s with current_book_type := some ("epub"), pages := [],
                     current_font_size := s.base_font_size,
                     epub_temp_dir := some (inp.tempDir) }
  if inp.readOk = false then (s1, true)
  else
    match loadEpubPages s1 inp.docItems with
    | (s2, true) => (s2, true)
    | (s2, false) =>
        if s2.pages = [] then
          ({ s2 with pages := [Page.html ("<h3>No readable content found.</h3>")] }, false)
        else (s2, false)

/-- Tail of FeReaderWindow.open_file (lines 861-864), reached only when the
loader did not raise: record path and title (the base name is modelled by the
path string itself), reset the index and refresh the view. -/
def finishOpen (s : ViewerState) (path : String) : ViewerState :=
  updateView { s with current_book_path := some (path), current_book_title := path,
                      current_index := 0 }

/-- FeReaderWindow.open_file (lines 835-864) for a chosen path with the given
lowercased extension: dispatch on the extension, catch loader exceptions (the
message box keeps the partially mutated state), and finish on normal return. -/
def open_file (s : ViewerState) (path ext : String) (pinp : PdfInput)
    (einp : EpubInput) : ViewerState :=
  if ext = ".pdf" then
    match load_pdf s pinp with
    | (s1, true) => s1
    | (s1, false) => finishOpen s1 path
  else if ext = ".epub" then
    match load_epub s einp with
    | (s1, true) => s1
    | (s1, false) => finishOpen s1 path
  else s

/-- Values returned by SettingsDialog.get_values; the size spin box of the
dialog enforces the range 8 .. 48 (line 157). -/
structure SettingsValues where
  font_family : String
  font_size : Int
  theme : String
  language : String

/-- FeReaderWindow.open_settings_dialog (lines 1133-1153): on accept, copy the
dialog values, set the current font size to the new base size, and refresh. -/
def open_settings_dialog (s : ViewerState) (accepted : Bool) (v : SettingsValues) :
    ViewerState :=
  if accepted then
    updateView { s with font_family := v.font_family, base_font_size := v.font_size,
                        current_font_size := v.font_size, theme := v.theme,
                        language := v.language }
  else s

/-- Default settings of FeReaderWindow._load_or_create_settings (lines
474-479), in the iteration order of the source dictionary. -/
def settingsDefaults : List (String × String) :=
  [("theme", "light"), ("font_family", "Segoe UI"), ("font_size", "12"), ("language", "en")]

/-- Python dict.setdefault on an association list: keep an existing key,
otherwise append the default binding. -/
def setdefault (l : List (String × String)) (k v : String) : List (String × String) :=
  match l.lookup k with
  | some _ => l
  | none => l ++ [(k, v)]

/-- FeReaderWindow._load_or_create_settings (lines 473-492).  The input is the
General section as stored: none when the file is absent or unreadable (the
parser is then reset to empty, and a missing General section also yields an
empty record).  The result is the completed record, which the source writes
back to the settings file before returning. -/
def load_or_create_settings (stored : Option (List (String × String))) :
    List (String × String) :=
  settingsDefaults.foldl (fun g kv => setdefault g kv.1 kv.2) (stored.getD [])

/-- The state of FeReaderWindow right after __init__ with the default
settings (lines 411-426): no document, page index 0, base font 12. -/
def initialState : ViewerState :=
  { current_book_type := none, current_book_path := none, current_book_title := "Untitled",
    pages := [], current_index := 0, current_font_size := 12, base_font_size := 12,
    current_zoom := 1, pdf_images := [], epub_temp_dir := none, view_mode := "single",
    continuous_needs_build := true, multi_layout := [], single_label := none,
    one_page_checked := true, all_pages_checked := false,
    theme := "light", font_family := "Segoe UI", language := "en" }

/-- A well behaved ten page unencrypted PDF, every page 100 by 200 pixels. -/
def pdfTen : PdfInput :=
  Except.ok ⟨false, true, "", true, List.replicate 10 (Except.ok ⟨100, 200⟩)⟩

/-- An EPUB container with no document items that opens cleanly. -/
def epubEmptyInput : EpubInput := ⟨true, "tmpA", []⟩

/-- An EPUB container with one document item that opens cleanly. -/
def epubOneInput : EpubInput := ⟨true, "tmpB", [Except.ok ("<p>x</p>")]⟩

/-- The viewer after opening the ten page PDF from the initial state. -/
def tenPageState : ViewerState := open_file initialState ("a.pdf") ".pdf" pdfTen epubEmptyInput

/-- The ten page viewer after jumping to page 8, so the index is 7. -/
def staleIndexState : ViewerState := go_to_page_dialog tenPageState true 8

/-- A PDF whose engine renders three pages and then raises on the fourth. -/
def pdfBroken : PdfInput :=
  Except.ok ⟨false, true, "", true,
    [Except.ok ⟨10, 10⟩, Except.ok ⟨10, 10⟩, Except.ok ⟨10, 10⟩, Except.error ()]⟩

/-- Opening the broken PDF while page 8 of the old document is shown: the
loader raises after three pages, open_file catches and returns early. -/
def partialFailState : ViewerState :=
  open_file staleIndexState ("b.pdf") ".pdf" pdfBroken epubEmptyInput

/-- The ten page viewer switched to the continuous layout (which builds the
stacked widgets and clears the dirty flag). -/
def continuousBuiltState : ViewerState := set_view_mode tenPageState ("continuous")

/-- Opening a well formed EPUB while the PDF continuous layout is shown. -/
def epubAfterContinuous : ViewerState :=
  open_file continuousBuiltState ("b.epub") ".epub" pdfTen epubOneInput

/-- The viewer after opening the one item EPUB from the initial state. -/
def epubBaseState : ViewerState := open_file initialState ("book.epub") ".epub" pdfTen epubOneInput

/-- The EPUB viewer after accepting the settings dialog with font size 48,
the largest value its spin box allows. -/
def fontAfterSettings : ViewerState :=
  open_settings_dialog epubBaseState true ⟨"Arial", 48, "light", "en"⟩

/-- A one page PDF state in continuous mode, written out literally. -/
def contLiteralState : ViewerState :=
  { initialState with current_book_type := some ("pdf"),
                      pages := [Page.raster 0], pdf_images := [⟨100, 200⟩],
                      view_mode := "continuous" }

/-- An open EPUB whose font scale sits at 48, written out literally; the same
configuration is reachable through the settings dialog (fontAfterSettings). -/
def epubLiteralState : ViewerState :=
  { initialState with current_book_type := some ("epub"),
                      pages := [Page.html ("<p>x</p>")],
                      current_font_size := 48 }

theorem updateView_pages (s : ViewerState) : (updateView s).pages = s.pages := by
  unfold updateView buildContinuous
  split_ifs <;> rfl

theorem updateView_current_index (s : ViewerState) :
    (updateView s).current_index = s.current_index := by
  unfold updateView buildContinuous
  split_ifs <;> rfl

theorem updateView_current_font_size (s : ViewerState) :
    (updateView s).current_font_size = s.current_font_size := by
  unfold updateView buildContinuous
  split_ifs <;> rfl

theorem updateView_base_font_size (s : ViewerState) :
    (updateView s).base_font_size = s.base_font_size := by
  unfold updateView buildContinuous
  split_ifs <;> rfl

theorem updateView_current_zoom (s : ViewerState) :
    (updateView s).current_zoom = s.current_zoom := by
  unfold updateView buildContinuous
  split_ifs <;> rfl

theorem updateView_view_mode (s : ViewerState) : (updateView s).view_mode = s.view_mode := by
  unfold updateView buildContinuous
  split_ifs <;> rfl

theorem updateView_current_book_type (s : ViewerState) :
    (updateView s).current_book_type = s.current_book_type := by
  unfold updateView buildContinuous
  split_ifs <;> rfl

/-- The view refresh never touches the dirty flag while in single page mode
(only the continuous branch rebuilds). -/
theorem updateView_dirty_single (s : ViewerState) (h : s.view_mode = "single") :
    (updateView s).continuous_needs_build = s.continuous_needs_build := by
  unfold updateView
  split_ifs <;> simp_all

/-- For a reflowable document the view refresh changes no tracked state at
all: it only hands html to the text widget. -/
theorem updateView_epub (s : ViewerState) (h : s.current_book_type = some ("epub")) :
    updateView s = s := by
  unfold updateView
  split_ifs <;> simp_all

/-- Fields of the viewer state that the PDF page loop never touches. -/
theorem loadPdfPages_frame (l : List (Except Unit Image)) (s : ViewerState) :
    (loadPdfPages s l).1.current_font_size = s.current_font_size ∧
    (loadPdfPages s l).1.current_zoom = s.current_zoom ∧
    (loadPdfPages s l).1.base_font_size = s.base_font_size ∧
    (loadPdfPages s l).1.view_mode = s.view_mode ∧
    (loadPdfPages s l).1.continuous_needs_build = s.continuous_needs_build ∧
    (loadPdfPages s l).1.current_book_type = s.current_book_type ∧
    (loadPdfPages s l).1.current_index = s.current_index := by
  induction l generalizing s with
  | nil => exact ⟨rfl, rfl, rfl, rfl, rfl, rfl, rfl⟩
  | cons x rest ih =>
      cases x with
      | error e => exact ⟨rfl, rfl, rfl, rfl, rfl, rfl, rfl⟩
      | ok img => exact ih _

/-- Fields of the viewer state that the EPUB item loop never touches. -/
theorem loadEpubPages_frame (l : List (Except Unit String)) (s : ViewerState) :
    (loadEpubPages s l).1.current_font_size = s.current_font_size ∧
    (loadEpubPages s l).1.current_zoom = s.current_zoom ∧
    (loadEpubPages s l).1.base_font_size = s.base_font_size ∧
    (loadEpubPages s l).1.view_mode = s.view_mode ∧
    (loadEpubPages s l).1.continuous_needs_build = s.continuous_needs_build ∧
    (loadEpubPages s l).1.current_book_type = s.current_book_type ∧
    (loadEpubPages s l).1.current_index = s.current_index := by
  induction l generalizing s with
  | nil => exact ⟨rfl, rfl, rfl, rfl, rfl, rfl, rfl⟩
  | cons x rest ih =>
      cases x with
      | error e => exact ⟨rfl, rfl, rfl, rfl, rfl, rfl, rfl⟩
      | ok htmlPage => exact ih _

/-- After load_pdf, whatever the engine outcome: font and base size are kept,
zoom is reset to one, the mode is single page, the layout is dirty, the book
type is pdf and the page index is untouched. -/
theorem load_pdf_fields (s : ViewerState) (inp : PdfInput) :
    (load_pdf s inp).1.current_font_size = s.current_font_size ∧
    (load_pdf s inp).1.current_zoom = 1 ∧
    (load_pdf s inp).1.base_font_size = s.base_font_size ∧
    (load_pdf s inp).1.view_mode = "single" ∧
    (load_pdf s inp).1.continuous_needs_build = true ∧
    (load_pdf s inp).1.current_book_type = some ("pdf") ∧
    (load_pdf s inp).1.current_index = s.current_index := by
  unfold load_pdf
  cases inp with
  | error e => exact ⟨rfl, rfl, rfl, rfl, rfl, rfl, rfl⟩
  | ok d =>
      dsimp only
      split_ifs <;>
        first
          | exact ⟨rfl, rfl, rfl, rfl, rfl, rfl, rfl⟩
          | exact loadPdfPages_frame d.pageResults _

/-- After load_epub, whatever the engine outcome: the font size is reset to
the base size, zoom, layout mode and dirty flag are kept, the book type is
epub and the page index is untouched. -/
theorem load_epub_fields (s : ViewerState) (inp : EpubInput) :
    (load_epub s inp).1.current_font_size = s.base_font_size ∧
    (load_epub s inp).1.current_zoom = s.current_zoom ∧
    (load_epub s inp).1.base_font_size = s.base_font_size ∧
    (load_epub s inp).1.view_mode = s.view_mode ∧
    (load_epub s inp).1.continuous_needs_build = s.continuous_needs_build ∧
    (load_epub s inp).1.current_book_type = some ("epub") ∧
    (load_epub s inp).1.current_index = s.current_index := by
  have hf := loadEpubPages_frame inp.docItems
      { s with current_book_type := some ("epub"), pages := [],
               current_font_size := s.base_font_size,
               epub_temp_dir := some (inp.tempDir) }
  unfold load_epub
  dsimp only
  split_ifs with h
  · exact ⟨rfl, rfl, rfl, rfl, rfl, rfl, rfl⟩
  · rcases hLP : loadEpubPages
        { s with current_book_type := some ("epub"), pages := [],
                 current_font_size := s.base_font_size,
                 epub_temp_dir := some (inp.tempDir) } inp.docItems with ⟨s2, b⟩
    rw [hLP] at hf
    cases b
    · dsimp only
      split_ifs with hp
      · exact hf
      · exact hf
    · exact hf

/-- Fields set or preserved by the tail of open_file after a loader returned
normally. -/
theorem finishOpen_fields (s : ViewerState) (path : String) :
    (finishOpen s path).current_index = 0 ∧
    (finishOpen s path).pages = s.pages ∧
    (finishOpen s path).current_font_size = s.current_font_size ∧
    (finishOpen s path).current_zoom = s.current_zoom ∧
    (finishOpen s path).base_font_size = s.base_font_size ∧
    (finishOpen s path).view_mode = s.view_mode ∧
    (finishOpen s path).current_book_type = s.current_book_type := by
  unfold finishOpen
  exact ⟨updateView_current_index _, updateView_pages _, updateView_current_font_size _,
    updateView_current_zoom _, updateView_base_font_size _, updateView_view_mode _,
    updateView_current_book_type _⟩

theorem finishOpen_dirty_single (s : ViewerState) (path : String)
    (h : s.view_mode = "single") :
    (finishOpen s path).continuous_needs_build = s.continuous_needs_build := by
  unfold finishOpen
  exact updateView_dirty_single _ h

theorem finishOpen_epub (s : ViewerState) (path : String)
    (h : s.current_book_type = some ("epub")) :
    finishOpen s path = { s with current_book_path := some (path),
                                 current_book_title := path, current_index := 0 } := by
  unfold finishOpen
  exact updateView_epub _ h

/-- In continuous mode with a dirty layout, the view refresh is exactly the
rebuild. -/
theorem updateView_continuous_rebuild (s : ViewerState)
    (h1 : s.current_book_type = some ("pdf")) (h2 : s.view_mode = "continuous")
    (h3 : s.pages ≠ []) (h4 : s.continuous_needs_build = true) :
    updateView s = buildContinuous s := by
  unfold updateView
  simp [h1, h2, h3, h4]

/-- In continuous mode with a clean layout, the view refresh changes
nothing. -/
theorem updateView_continuous_clean (s : ViewerState)
    (h1 : s.current_book_type = some ("pdf")) (h2 : s.view_mode = "continuous")
    (h3 : s.pages ≠ []) (h4 : s.continuous_needs_build = false) :
    updateView s = s := by
  unfold updateView
  simp [h1, h2, h3, h4]

theorem buildContinuous_frame (s : ViewerState) :
    (buildContinuous s).pages = s.pages ∧
    (buildContinuous s).current_book_type = s.current_book_type ∧
    (buildContinuous s).view_mode = s.view_mode ∧
    (buildContinuous s).continuous_needs_build = false := ⟨rfl, rfl, rfl, rfl⟩

/-- C1: for every loaded document with N pages, each navigation operation
(previous page, next page, go to page) leaves the current page index inside
0 .. N-1; when the page list is empty, every navigation operation leaves the
whole viewer state unchanged. -/
theorem nav_keeps_index_in_range (s : ViewerState) (ok : Bool) (v : Int) :
    (s.current_index < s.pages.length →
      (go_prev s).current_index < (go_prev s).pages.length ∧
      (go_next s).current_index < (go_next s).pages.length ∧
      (go_to_page_dialog s ok v).current_index < (go_to_page_dialog s ok v).pages.length) ∧
    (s.pages = [] →
      go_prev s = s ∧ go_next s = s ∧ go_to_page_dialog s ok v = s) := by
  constructor
  · intro h
    have hne : ¬ s.pages = [] := by
      intro he
      rw [he] at h
      simp at h
    refine ⟨?_, ?_, ?_⟩
    · unfold go_prev
      rw [if_neg hne]
      split_ifs with h0
      · rw [updateView_current_index, updateView_pages]
        show s.current_index - 1 < s.pages.length
        omega
      · exact h
    · unfold go_next
      rw [if_neg hne]
      split_ifs with h0
      · rw [updateView_current_index, updateView_pages]
        show s.current_index + 1 < s.pages.length
        omega
      · exact h
    · unfold go_to_page_dialog
      rw [if_neg hne]
      dsimp only
      split_ifs with hok
      · rw [updateView_current_index, updateView_pages]
        have hlen : 0 < s.pages.length := List.length_pos.mpr hne
        show (max 1 (min v (s.pages.length : Int)) - 1).toNat < s.pages.length
        omega
      · exact h
  · intro h
    refine ⟨?_, ?_, ?_⟩ <;> simp [go_prev, go_next, go_to_page_dialog, h]

theorem nav_keeps_index_in_range_witness :
    ((go_prev tenPageState).current_index < (go_prev tenPageState).pages.length ∧
     (go_next tenPageState).current_index < (go_next tenPageState).pages.length ∧
     (go_to_page_dialog tenPageState true 3).current_index <
       (go_to_page_dialog tenPageState true 3).pages.length) ∧
    (go_prev initialState = initialState ∧ go_next initialState = initialState ∧
     go_to_page_dialog initialState true 3 = initialState) :=
  ⟨(nav_keeps_index_in_range tenPageState true 3).1 (by decide),
   (nav_keeps_index_in_range initialState true 3).2 (by decide)⟩

/-- C2: the claimed invariant (page list empty or current index below the page
count) is broken by the code when an open fails partway through loading pages:
from a ten page document shown at index 7, opening a PDF whose engine raises
on the fourth page leaves three loaded pages with the stale index 7, so the
index is out of range for a non empty page list.  The claim matches the clear
intent of the failure handling, so this is a code bug. -/
theorem partial_pdf_open_breaks_index_invariant :
    staleIndexState.current_index = 7 ∧
    staleIndexState.current_index < staleIndexState.pages.length ∧
    partialFailState.pages.length = 3 ∧
    partialFailState.current_index = 7 ∧
    ¬ (partialFailState.pages = [] ∨
       partialFailState.current_index < partialFailState.pages.length) := by
  decide

/-- C3 counterexample: a successful EPUB open does not fully reset the view
state.  From a PDF shown in continuous mode with a clean layout, opening a
well formed EPUB succeeds (the loader raises nothing and a page is present),
yet the layout mode is still continuous and the dirty flag is still false,
against the claimed reset to single page mode with dirty true. -/
theorem epub_open_keeps_layout_mode :
    (load_epub continuousBuiltState epubOneInput).2 = false ∧
    epubAfterContinuous.pages ≠ [] ∧
    epubAfterContinuous.view_mode = "continuous" ∧
    ¬ (epubAfterContinuous.view_mode = "single" ∧
       epubAfterContinuous.continuous_needs_build = true) := by
  decide

/-- C3 amended: a successful PDF open fully resets the view state (index 0,
zoom 1, single page mode, dirty flag true); a successful EPUB open resets the
index to 0 and the font scale to the base font size, but leaves the layout
mode, the zoom factor and the dirty flag unchanged. -/
theorem open_reset_amended (s : ViewerState) (path : String) (pinp : PdfInput)
    (einp : EpubInput) (hp : (load_pdf s pinp).2 = false)
    (he : (load_epub s einp).2 = false) :
    ((open_file s path (".pdf") pinp einp).current_index = 0 ∧
     (open_file s path (".pdf") pinp einp).current_zoom = 1 ∧
     (open_file s path (".pdf") pinp einp).view_mode = "single" ∧
     (open_file s path (".pdf") pinp einp).continuous_needs_build = true) ∧
    ((open_file s path (".epub") pinp einp).current_index = 0 ∧
     (open_file s path (".epub") pinp einp).current_font_size = s.base_font_size ∧
     (open_file s path (".epub") pinp einp).view_mode = s.view_mode ∧
     (open_file s path (".epub") pinp einp).current_zoom = s.current_zoom ∧
     (open_file s path (".epub") pinp einp).continuous_needs_build = s.continuous_needs_build) := by
  have hpdf := load_pdf_fields s pinp
  have hepub := load_epub_fields s einp
  rcases hL : load_pdf s pinp with ⟨s1, b1⟩
  rcases hE : load_epub s einp with ⟨s2, b2⟩
  rw [hL] at hp hpdf
  rw [hE] at he hepub
  dsimp only at hp he hpdf hepub
  subst hp
  subst he
  obtain ⟨hf1, hz1, hb1, hv1, hd1, ht1, hi1⟩ := hpdf
  obtain ⟨hf2, hz2, hb2, hv2, hd2, ht2, hi2⟩ := hepub
  have e1 : open_file s path (".pdf") pinp einp = finishOpen s1 path := by
    unfold open_file
    rw [if_pos rfl, hL]
  have e2 : open_file s path (".epub") pinp einp = finishOpen s2 path := by
    unfold open_file
    rw [if_neg (by decide), if_pos rfl, hE]
  constructor
  · refine ⟨?_, ?_, ?_, ?_⟩
    · rw [e1]
      exact (finishOpen_fields s1 path).1
    · rw [e1, (finishOpen_fields s1 path).2.2.2.1]
      exact hz1
    · rw [e1, (finishOpen_fields s1 path).2.2.2.2.2.1]
      exact hv1
    · rw [e1, finishOpen_dirty_single s1 path hv1]
      exact hd1
  · rw [e2, finishOpen_epub s2 path ht2]
    exact ⟨rfl, hf2, hv2, hz2, hd2⟩

theorem open_reset_amended_witness :
    ((open_file continuousBuiltState ("a2.pdf") ".pdf" pdfTen epubOneInput).current_index = 0 ∧
     (open_file continuousBuiltState ("a2.pdf") ".pdf" pdfTen epubOneInput).current_zoom = 1 ∧
     (open_file continuousBuiltState ("a2.pdf") ".pdf" pdfTen epubOneInput).view_mode = "single" ∧
     (open_file continuousBuiltState ("a2.pdf") ".pdf" pdfTen epubOneInput).continuous_needs_build = true) ∧
    ((open_file continuousBuiltState ("a2.pdf") ".epub" pdfTen epubOneInput).current_index = 0 ∧
     (open_file continuousBuiltState ("a2.pdf") ".epub" pdfTen epubOneInput).current_font_size =
       continuousBuiltState.base_font_size ∧
     (open_file continuousBuiltState ("a2.pdf") ".epub" pdfTen epubOneInput).view_mode =
       continuousBuiltState.view_mode ∧
     (open_file continuousBuiltState ("a2.pdf") ".epub" pdfTen epubOneInput).current_zoom =
       continuousBuiltState.current_zoom ∧
     (open_file continuousBuiltState ("a2.pdf") ".epub" pdfTen epubOneInput).continuous_needs_build =
       continuousBuiltState.continuous_needs_build) :=
  open_reset_amended continuousBuiltState ("a2.pdf") pdfTen epubOneInput (by decide) (by decide)

/-- C4 counterexample: after a failed open with an unsupported extension the
controller is not in the no document state when a document was already
loaded.  With the ten page PDF shown, opening a txt file fails (warning box,
early return) and the old document, including its ten pages, stays set. -/
theorem unsupported_open_keeps_document :
    open_file tenPageState ("notes.txt") ".txt" pdfTen epubEmptyInput = tenPageState ∧
    tenPageState.pages ≠ [] := by
  constructor
  · unfold open_file
    rw [if_neg (by decide), if_neg (by decide)]
  · decide

/-- C4 amended: no failed open raises out of the controller (open_file is a
total function; errors are surfaced in message boxes).  With an unsupported
extension the whole state is unchanged, so a previously loaded document
remains set.  With a cancelled or empty passphrase, a wrong passphrase, an
engine failure when opening the PDF, or an engine failure reading the EPUB
container, the page list ends empty, which is the no document state of the
viewer. -/
theorem failed_open_amended (s : ViewerState) (path ext : String) (d : PdfDocInput)
    (pinp : PdfInput) (einp : EpubInput) :
    (ext ≠ ".pdf" → ext ≠ ".epub" → open_file s path ext pinp einp = s) ∧
    (d.needs_pass = true → (d.promptOk = false ∨ d.password = "") →
      (open_file s path (".pdf") (Except.ok d) einp).pages = []) ∧
    (d.needs_pass = true → d.promptOk = true → d.password ≠ "" →
      d.authenticates = false →
      (open_file s path (".pdf") (Except.ok d) einp).pages = []) ∧
    ((open_file s path (".pdf") (Except.error ()) einp).pages = []) ∧
    (einp.readOk = false → (open_file s path (".epub") pinp einp).pages = []) := by
  refine ⟨?_, ?_, ?_, ?_, ?_⟩
  · intro h1 h2
    unfold open_file
    rw [if_neg h1, if_neg h2]
  · intro hnp hcan
    rcases hcan with hc | hc <;>
      simp [open_file, load_pdf, hnp, hc, finishOpen, updateView_pages]
  · intro hnp hok hpw hauth
    simp [open_file, load_pdf, hnp, hok, hpw, hauth, finishOpen, updateView_pages]
  · simp [open_file, load_pdf]
  · intro hr
    simp [open_file, load_epub, hr]

theorem failed_open_amended_witness :
    (open_file tenPageState ("n.txt") ".txt" pdfTen epubEmptyInput = tenPageState) ∧
    ((open_file tenPageState ("c.pdf") ".pdf"
        (Except.ok ⟨true, false, "", true, []⟩) epubEmptyInput).pages = []) ∧
    ((open_file tenPageState ("w.pdf") ".pdf"
        (Except.ok ⟨true, true, "guess", false, []⟩) epubEmptyInput).pages = []) ∧
    ((open_file tenPageState ("e.pdf") ".pdf" (Except.error ()) epubEmptyInput).pages = []) ∧
    ((open_file tenPageState ("e.epub") ".epub" pdfTen ⟨false, "tmpC", []⟩).pages = []) :=
  ⟨(failed_open_amended tenPageState ("n.txt") ".txt" ⟨true, false, "", true, []⟩ pdfTen
      epubEmptyInput).1 (by decide) (by decide),
   (failed_open_amended tenPageState ("c.pdf") ".pdf" ⟨true, false, "", true, []⟩ pdfTen
      epubEmptyInput).2.1 rfl (Or.inl rfl),
   (failed_open_amended tenPageState ("w.pdf") ".pdf" ⟨true, true, "guess", false, []⟩ pdfTen
      epubEmptyInput).2.2.1 rfl rfl (by decide) rfl,
   (failed_open_amended tenPageState ("e.pdf") ".pdf" ⟨true, false, "", true, []⟩ pdfTen
      epubEmptyInput).2.2.2.1,
   (failed_open_amended tenPageState ("e.epub") ".epub" ⟨true, false, "", true, []⟩ pdfTen
      ⟨false, "tmpC", []⟩).2.2.2.2 rfl⟩

/-- C5: for a raster document in continuous mode, each zoom change mutation
(zoom in, zoom out, zoom label input, the state updates preceding the final
view refresh inside the handlers) sets the dirty flag; one view refresh is
then exactly the rebuild of the continuous layout and clears the flag; a
second refresh with no intervening state change is the identity on the
refreshed state, performing no rebuild. -/
theorem zoom_dirty_render_cycle (s : ViewerState) (v : Int)
    (h1 : s.current_book_type = some ("pdf")) (h2 : s.view_mode = "continuous")
    (h3 : s.pages ≠ []) :
    (zoomInStep s).continuous_needs_build = true ∧
    (zoomOutStep s).continuous_needs_build = true ∧
    (zoomLabelPdfStep s v).continuous_needs_build = true ∧
    updateView (zoomInStep s) = buildContinuous (zoomInStep s) ∧
    (updateView (zoomInStep s)).continuous_needs_build = false ∧
    updateView (updateView (zoomInStep s)) = updateView (zoomInStep s) := by
  have hd : (zoomInStep s).continuous_needs_build = true := by
    simp [zoomInStep, h1, h2]
  have hp : (zoomInStep s).pages = s.pages := by
    simp [zoomInStep, h1, h2]
  have ht : (zoomInStep s).current_book_type = some ("pdf") := by
    simp [zoomInStep, h1, h2]
  have hv : (zoomInStep s).view_mode = "continuous" := by
    simp [zoomInStep, h1, h2]
  have hpn : (zoomInStep s).pages ≠ [] := by
    rw [hp]
    exact h3
  have e1 : updateView (zoomInStep s) = buildContinuous (zoomInStep s) :=
    updateView_continuous_rebuild _ ht hv hpn hd
  have hb := buildContinuous_frame (zoomInStep s)
  refine ⟨hd, ?_, ?_, e1, ?_, ?_⟩
  · simp [zoomOutStep, h1, h2]
  · simp [zoomLabelPdfStep, h2]
  · rw [e1]
    exact hb.2.2.2
  · rw [e1]
    exact updateView_continuous_clean _ (by rw [hb.2.1]; exact ht)
      (by rw [hb.2.2.1]; exact hv) (by rw [hb.1]; exact hpn) hb.2.2.2

theorem zoom_dirty_render_cycle_witness :
    (zoomInStep contLiteralState).continuous_needs_build = true ∧
    (zoomOutStep contLiteralState).continuous_needs_build = true ∧
    (zoomLabelPdfStep contLiteralState 200).continuous_needs_build = true ∧
    updateView (zoomInStep contLiteralState) = buildContinuous (zoomInStep contLiteralState) ∧
    (updateView (zoomInStep contLiteralState)).continuous_needs_build = false ∧
    updateView (updateView (zoomInStep contLiteralState)) =
      updateView (zoomInStep contLiteralState) :=
  zoom_dirty_render_cycle contLiteralState 200 rfl rfl (by decide)

/-- C6 counterexample: the claimed range 8 .. 40 for the font scale setters
fails in a reachable state.  Accepting the settings dialog with font size 48
over an open EPUB (fontAfterSettings, reachable per the C7 counterexample)
puts the font scale at 48; zoom_out then subtracts one and clamps only from
below (lines 1095-1098), leaving 47, outside 8 .. 40. -/
theorem zoom_out_font_47_exceeds_40 :
    fontAfterSettings.current_font_size = 48 ∧
    (zoom_out fontAfterSettings).current_font_size = 47 ∧
    ¬ ((zoom_out fontAfterSettings).current_font_size ≤ 40) := by
  decide

/-- C6 amended: every zoom setter is total (out of range inputs are silently
clamped, never rejected) and leaves the PDF zoom factor inside 1/2 .. 3; over
the reachable font range 8 .. 48 the font scale stays inside 8 .. 48, and on
a reflowable document the zoom in step and the label handler do land the font
size in 8 .. 40 for every input value, but the zoom out step only clamps from
below and can leave any value up to 47. -/
theorem zoom_setters_clamped_amended (s : ViewerState) (ok : Bool) (v : Int)
    (hz : 1 / 2 ≤ s.current_zoom ∧ s.current_zoom ≤ 3)
    (hf : 8 ≤ s.current_font_size ∧ s.current_font_size ≤ 48) :
    (1 / 2 ≤ (zoom_in s).current_zoom ∧ (zoom_in s).current_zoom ≤ 3 ∧
     8 ≤ (zoom_in s).current_font_size ∧ (zoom_in s).current_font_size ≤ 48) ∧
    (1 / 2 ≤ (zoom_out s).current_zoom ∧ (zoom_out s).current_zoom ≤ 3 ∧
     8 ≤ (zoom_out s).current_font_size ∧ (zoom_out s).current_font_size ≤ 48) ∧
    (1 / 2 ≤ (zoom_label_clicked s ok v).current_zoom ∧
     (zoom_label_clicked s ok v).current_zoom ≤ 3 ∧
     8 ≤ (zoom_label_clicked s ok v).current_font_size ∧
     (zoom_label_clicked s ok v).current_font_size ≤ 48) ∧
    (s.pages ≠ [] → ¬ s.current_book_type = some ("pdf") →
      (8 ≤ (zoom_in s).current_font_size ∧ (zoom_in s).current_font_size ≤ 40) ∧
      (8 ≤ (zoom_out s).current_font_size ∧ (zoom_out s).current_font_size ≤ 47) ∧
      (8 ≤ (zoom_label_clicked s true v).current_font_size ∧
       (zoom_label_clicked s true v).current_font_size ≤ 40)) := by
  obtain ⟨hz1, hz2⟩ := hz
  obtain ⟨hf1, hf2⟩ := hf
  refine ⟨?_, ?_, ?_, ?_⟩
  · unfold zoom_in zoomInStep
    dsimp only
    split_ifs
    all_goals try simp only [updateView_current_zoom, updateView_current_font_size]
    all_goals refine ⟨?_, ?_, ?_, ?_⟩ <;> first | assumption | linarith
  · unfold zoom_out zoomOutStep
    dsimp only
    split_ifs
    all_goals try simp only [updateView_current_zoom, updateView_current_font_size]
    all_goals refine ⟨?_, ?_, ?_, ?_⟩ <;> first | assumption | linarith
  · unfold zoom_label_clicked zoomLabelPdfStep zoomFontStep
    dsimp only
    split_ifs
    all_goals try simp only [updateView_current_zoom, updateView_current_font_size]
    all_goals refine ⟨?_, ?_, ?_, ?_⟩ <;> first | assumption | linarith
  · intro hpg hty
    have hok : ¬ ((true : Bool) = false) := by simp
    refine ⟨?_, ?_, ?_⟩
    · have e : zoom_in s = updateView (zoomInStep s) := by
        unfold zoom_in
        rw [if_neg hpg]
      rw [e, updateView_current_font_size]
      unfold zoomInStep
      rw [if_neg hty]
      dsimp only
      split_ifs <;> constructor <;> omega
    · have e : zoom_out s = updateView (zoomOutStep s) := by
        unfold zoom_out
        rw [if_neg hpg]
      rw [e, updateView_current_font_size]
      unfold zoomOutStep
      rw [if_neg hty]
      dsimp only
      split_ifs <;> constructor <;> omega
    · have e : zoom_label_clicked s true v =
          updateView (zoomFontStep s (max 50 (min v 300))) := by
        unfold zoom_label_clicked
        rw [if_neg hpg, if_neg hok]
        dsimp only
        rw [if_neg hty]
      rw [e, updateView_current_font_size]
      unfold zoomFontStep
      dsimp only
      split_ifs <;> constructor <;> omega

theorem zoom_setters_clamped_amended_witness :
    (8 ≤ (zoom_in epubLiteralState).current_font_size ∧
     (zoom_in epubLiteralState).current_font_size ≤ 40) ∧
    (8 ≤ (zoom_out epubLiteralState).current_font_size ∧
     (zoom_out epubLiteralState).current_font_size ≤ 47) ∧
    (8 ≤ (zoom_label_clicked epubLiteralState true 1000).current_font_size ∧
     (zoom_label_clicked epubLiteralState true 1000).current_font_size ≤ 40) :=
  (zoom_setters_clamped_amended epubLiteralState true 1000
    ⟨by norm_num [epubLiteralState, initialState], by norm_num [epubLiteralState, initialState]⟩
    ⟨by decide, by decide⟩).2.2.2 (by decide) (by decide)

theorem go_prev_frame (s : ViewerState) :
    (go_prev s).current_font_size = s.current_font_size ∧
    (go_prev s).current_zoom = s.current_zoom ∧
    (go_prev s).base_font_size = s.base_font_size := by
  unfold go_prev
  split_ifs <;>
    simp [updateView_current_font_size, updateView_current_zoom, updateView_base_font_size]

theorem go_next_frame (s : ViewerState) :
    (go_next s).current_font_size = s.current_font_size ∧
    (go_next s).current_zoom = s.current_zoom ∧
    (go_next s).base_font_size = s.base_font_size := by
  unfold go_next
  split_ifs <;>
    simp [updateView_current_font_size, updateView_current_zoom, updateView_base_font_size]

theorem go_to_page_frame (s : ViewerState) (ok : Bool) (v : Int) :
    (go_to_page_dialog s ok v).current_font_size = s.current_font_size ∧
    (go_to_page_dialog s ok v).current_zoom = s.current_zoom ∧
    (go_to_page_dialog s ok v).base_font_size = s.base_font_size := by
  unfold go_to_page_dialog
  dsimp only
  split_ifs <;>
    simp [updateView_current_font_size, updateView_current_zoom, updateView_base_font_size]

theorem set_view_mode_frame (s : ViewerState) (mode : String) :
    (set_view_mode s mode).current_font_size = s.current_font_size ∧
    (set_view_mode s mode).current_zoom = s.current_zoom ∧
    (set_view_mode s mode).base_font_size = s.base_font_size := by
  unfold set_view_mode setViewModeStep
  split_ifs <;>
    simp [updateView_current_font_size, updateView_current_zoom, updateView_base_font_size]

/-- Whatever open_file does, the font size is either kept or reset to the base
size, the zoom is either kept or reset to one, and the base size is kept. -/
theorem open_file_frame (s : ViewerState) (path ext : String) (pinp : PdfInput)
    (einp : EpubInput) :
    ((open_file s path ext pinp einp).current_font_size = s.current_font_size ∨
     (open_file s path ext pinp einp).current_font_size = s.base_font_size) ∧
    ((open_file s path ext pinp einp).current_zoom = s.current_zoom ∨
     (open_file s path ext pinp einp).current_zoom = 1) ∧
    (open_file s path ext pinp einp).base_font_size = s.base_font_size := by
  have hpdf := load_pdf_fields s pinp
  have hepub := load_epub_fields s einp
  rcases hL : load_pdf s pinp with ⟨s1, b1⟩
  rcases hE : load_epub s einp with ⟨s2, b2⟩
  rw [hL] at hpdf
  rw [hE] at hepub
  dsimp only at hpdf hepub
  obtain ⟨pf, pz, pb, _, _, _, _⟩ := hpdf
  obtain ⟨ef, ez, eb, _, _, _, _⟩ := hepub
  unfold open_file
  split_ifs with e1 e2
  · rw [hL]
    cases b1 with
    | false =>
        dsimp only
        have ff := finishOpen_fields s1 path
        exact ⟨Or.inl (by rw [ff.2.2.1, pf]), Or.inr (by rw [ff.2.2.2.1, pz]),
          by rw [ff.2.2.2.2.1, pb]⟩
    | true =>
        dsimp only
        exact ⟨Or.inl pf, Or.inr pz, pb⟩
  · rw [hE]
    cases b2 with
    | false =>
        dsimp only
        have ff := finishOpen_fields s2 path
        exact ⟨Or.inr (by rw [ff.2.2.1, ef]), Or.inl (by rw [ff.2.2.2.1, ez]),
          by rw [ff.2.2.2.2.1, eb]⟩
    | true =>
        dsimp only
        exact ⟨Or.inr ef, Or.inl ez, eb⟩
  · exact ⟨Or.inl rfl, Or.inl rfl, rfl⟩

/-- C7 counterexample: accepting the settings dialog with font size 48 (the
largest value its spin box offers) copies 48 into the current font scale of
an open reflowable document, which is outside the claimed range 8 .. 40. -/
theorem settings_font_48_exceeds_40 :
    fontAfterSettings.current_font_size = 48 ∧
    ¬ (fontAfterSettings.current_font_size ≤ 40) := by
  decide

/-- C7 amended: the PDF zoom factor stays inside 1/2 .. 3 after every
operation, but the amended bound for the reflowable font scale is 8 .. 48:
a settings change copies the new base size (dialog range 8 .. 48) into the
font scale, and a reflowable open resets the font scale to the base size, so
only 48 (not 40) bounds the scale across all operations; the stepping and
label zoom handlers do keep it inside 8 .. 40. -/
theorem font_zoom_invariant_amended (s : ViewerState) (path ext : String)
    (pinp : PdfInput) (einp : EpubInput) (ok : Bool) (v : Int) (sv : SettingsValues)
    (mode : String)
    (hb : 8 ≤ s.base_font_size ∧ s.base_font_size ≤ 48)
    (hf : 8 ≤ s.current_font_size ∧ s.current_font_size ≤ 48)
    (hz : 1 / 2 ≤ s.current_zoom ∧ s.current_zoom ≤ 3)
    (hsv : 8 ≤ sv.font_size ∧ sv.font_size ≤ 48) :
    (8 ≤ (open_file s path ext pinp einp).current_font_size ∧
     (open_file s path ext pinp einp).current_font_size ≤ 48 ∧
     1 / 2 ≤ (open_file s path ext pinp einp).current_zoom ∧
     (open_file s path ext pinp einp).current_zoom ≤ 3 ∧
     8 ≤ (open_file s path ext pinp einp).base_font_size ∧
     (open_file s path ext pinp einp).base_font_size ≤ 48) ∧
    (8 ≤ (go_prev s).current_font_size ∧ (go_prev s).current_font_size ≤ 48 ∧
     1 / 2 ≤ (go_prev s).current_zoom ∧ (go_prev s).current_zoom ≤ 3 ∧
     8 ≤ (go_prev s).base_font_size ∧ (go_prev s).base_font_size ≤ 48) ∧
    (8 ≤ (go_next s).current_font_size ∧ (go_next s).current_font_size ≤ 48 ∧
     1 / 2 ≤ (go_next s).current_zoom ∧ (go_next s).current_zoom ≤ 3 ∧
     8 ≤ (go_next s).base_font_size ∧ (go_next s).base_font_size ≤ 48) ∧
    (8 ≤ (go_to_page_dialog s ok v).current_font_size ∧
     (go_to_page_dialog s ok v).current_font_size ≤ 48 ∧
     1 / 2 ≤ (go_to_page_dialog s ok v).current_zoom ∧
     (go_to_page_dialog s ok v).current_zoom ≤ 3 ∧
     8 ≤ (go_to_page_dialog s ok v).base_font_size ∧
     (go_to_page_dialog s ok v).base_font_size ≤ 48) ∧
    (8 ≤ (zoom_in s).current_font_size ∧ (zoom_in s).current_font_size ≤ 48 ∧
     1 / 2 ≤ (zoom_in s).current_zoom ∧ (zoom_in s).current_zoom ≤ 3 ∧
     8 ≤ (zoom_in s).base_font_size ∧ (zoom_in s).base_font_size ≤ 48) ∧
    (8 ≤ (zoom_out s).current_font_size ∧ (zoom_out s).current_font_size ≤ 48 ∧
     1 / 2 ≤ (zoom_out s).current_zoom ∧ (zoom_out s).current_zoom ≤ 3 ∧
     8 ≤ (zoom_out s).base_font_size ∧ (zoom_out s).base_font_size ≤ 48) ∧
    (8 ≤ (zoom_label_clicked s ok v).current_font_size ∧
     (zoom_label_clicked s ok v).current_font_size ≤ 48 ∧
     1 / 2 ≤ (zoom_label_clicked s ok v).current_zoom ∧
     (zoom_label_clicked s ok v).current_zoom ≤ 3 ∧
     8 ≤ (zoom_label_clicked s ok v).base_font_size ∧
     (zoom_label_clicked s ok v).base_font_size ≤ 48) ∧
    (8 ≤ (set_view_mode s mode).current_font_size ∧
     (set_view_mode s mode).current_font_size ≤ 48 ∧
     1 / 2 ≤ (set_view_mode s mode).current_zoom ∧
     (set_view_mode s mode).current_zoom ≤ 3 ∧
     8 ≤ (set_view_mode s mode).base_font_size ∧
     (set_view_mode s mode).base_font_size ≤ 48) ∧
    (8 ≤ (open_settings_dialog s ok sv).current_font_size ∧
     (open_settings_dialog s ok sv).current_font_size ≤ 48 ∧
     1 / 2 ≤ (open_settings_dialog s ok sv).current_zoom ∧
     (open_settings_dialog s ok sv).current_zoom ≤ 3 ∧
     8 ≤ (open_settings_dialog s ok sv).base_font_size ∧
     (open_settings_dialog s ok sv).base_font_size ≤ 48) := by
  obtain ⟨hb1, hb2⟩ := hb
  obtain ⟨hf1, hf2⟩ := hf
  obtain ⟨hz1, hz2⟩ := hz
  obtain ⟨hs1, hs2⟩ := hsv
  have hkeep : ∀ t : ViewerState, t.current_font_size = s.current_font_size →
      t.current_zoom = s.current_zoom → t.base_font_size = s.base_font_size →
      8 ≤ t.current_font_size ∧ t.current_font_size ≤ 48 ∧
      1 / 2 ≤ t.current_zoom ∧ t.current_zoom ≤ 3 ∧
      8 ≤ t.base_font_size ∧ t.base_font_size ≤ 48 := by
    intro t e1 e2 e3
    rw [e1, e2, e3]
    exact ⟨hf1, hf2, hz1, hz2, hb1, hb2⟩
  refine ⟨?_, ?_, ?_, ?_, ?_, ?_, ?_, ?_, ?_⟩
  · obtain ⟨hof, hoz, hob⟩ := open_file_frame s path ext pinp einp
    refine ⟨?_, ?_, ?_, ?_, ?_, ?_⟩
    · rcases hof with h | h <;> rw [h] <;> first | exact hf1 | exact hb1
    · rcases hof with h | h <;> rw [h] <;> first | exact hf2 | exact hb2
    · rcases hoz with h | h <;> rw [h] <;> first | exact hz1 | norm_num
    · rcases hoz with h | h <;> rw [h] <;> first | exact hz2 | norm_num
    · rw [hob]
      exact hb1
    · rw [hob]
      exact hb2
  · obtain ⟨e1, e2, e3⟩ := go_prev_frame s
    exact hkeep _ e1 e2 e3
  · obtain ⟨e1, e2, e3⟩ := go_next_frame s
    exact hkeep _ e1 e2 e3
  · obtain ⟨e1, e2, e3⟩ := go_to_page_frame s ok v
    exact hkeep _ e1 e2 e3
  · unfold zoom_in zoomInStep
    dsimp only
    split_ifs
    all_goals try
      simp only [updateView_current_font_size, updateView_current_zoom,
        updateView_base_font_size]
    all_goals refine ⟨?_, ?_, ?_, ?_, ?_, ?_⟩ <;> first | assumption | linarith
  · unfold zoom_out zoomOutStep
    dsimp only
    split_ifs
    all_goals try
      simp only [updateView_current_font_size, updateView_current_zoom,
        updateView_base_font_size]
    all_goals refine ⟨?_, ?_, ?_, ?_, ?_, ?_⟩ <;> first | assumption | linarith
  · unfold zoom_label_clicked zoomLabelPdfStep zoomFontStep
    dsimp only
    split_ifs
    all_goals try
      simp only [updateView_current_font_size, updateView_current_zoom,
        updateView_base_font_size]
    all_goals refine ⟨?_, ?_, ?_, ?_, ?_, ?_⟩ <;> first | assumption | linarith
  · obtain ⟨e1, e2, e3⟩ := set_view_mode_frame s mode
    exact hkeep _ e1 e2 e3
  · unfold open_settings_dialog
    split_ifs
    · simp only [updateView_current_font_size, updateView_current_zoom,
        updateView_base_font_size]
      exact ⟨hs1, hs2, hz1, hz2, hs1, hs2⟩
    · exact ⟨hf1, hf2, hz1, hz2, hb1, hb2⟩

theorem font_zoom_invariant_amended_witness :
    8 ≤ (open_file contLiteralState ("p.pdf") ".pdf" pdfTen epubOneInput).current_font_size ∧
    (open_file contLiteralState ("p.pdf") ".pdf" pdfTen epubOneInput).current_font_size ≤ 48 ∧
    1 / 2 ≤ (open_file contLiteralState ("p.pdf") ".pdf" pdfTen epubOneInput).current_zoom ∧
    (open_file contLiteralState ("p.pdf") ".pdf" pdfTen epubOneInput).current_zoom ≤ 3 ∧
    8 ≤ (open_file contLiteralState ("p.pdf") ".pdf" pdfTen epubOneInput).base_font_size ∧
    (open_file contLiteralState ("p.pdf") ".pdf" pdfTen epubOneInput).base_font_size ≤ 48 :=
  (font_zoom_invariant_amended contLiteralState ("p.pdf") ".pdf" pdfTen epubOneInput
    true 100 ⟨"Arial", 48, "dark", "en"⟩ "continuous"
    ⟨by decide, by decide⟩ ⟨by decide, by decide⟩
    ⟨by norm_num [contLiteralState, initialState], by norm_num [contLiteralState, initialState]⟩
    ⟨by decide, by decide⟩).1

/-- C8: set_view_mode is a no op when the current document is reflowable (the
whole viewer state is returned unchanged, every field included); when the
current document is raster, the mutation stage of switching into continuous
mode sets the dirty flag to true (the handler then runs the view refresh). -/
theorem layout_mode_semantics (s : ViewerState) (mode : String) :
    (s.current_book_type = some ("epub") → set_view_mode s mode = s) ∧
    (s.current_book_type = some ("pdf") →
      (setViewModeStep s ("continuous")).continuous_needs_build = true) := by
  constructor
  · intro h
    unfold set_view_mode
    rw [if_pos]
    rw [h]
    decide
  · intro _
    simp [setViewModeStep]

theorem layout_mode_semantics_witness :
    set_view_mode epubBaseState ("continuous") = epubBaseState ∧
    (setViewModeStep contLiteralState ("continuous")).continuous_needs_build = true :=
  ⟨(layout_mode_semantics epubBaseState ("continuous")).1 (by decide),
   (layout_mode_semantics contLiteralState ("continuous")).2 rfl⟩

theorem lookup_append_some (l1 l2 : List (String × String)) (k v : String)
    (h : l1.lookup k = some v) : (l1 ++ l2).lookup k = some v := by
  induction l1 with
  | nil => simp [List.lookup] at h
  | cons p t ih =>
      obtain ⟨pk, pv⟩ := p
      rw [List.cons_append]
      cases hk : k == pk with
      | true =>
          rw [List.lookup, hk] at h
          rw [List.lookup, hk]
          exact h
      | false =>
          rw [List.lookup, hk] at h
          rw [List.lookup, hk]
          exact ih h

theorem lookup_append_none (l1 l2 : List (String × String)) (k : String)
    (h : l1.lookup k = none) : (l1 ++ l2).lookup k = l2.lookup k := by
  induction l1 with
  | nil => simp
  | cons p t ih =>
      obtain ⟨pk, pv⟩ := p
      rw [List.cons_append]
      cases hk : k == pk with
      | true =>
          rw [List.lookup, hk] at h
          exact absurd h (by simp)
      | false =>
          rw [List.lookup, hk] at h
          rw [List.lookup, hk]
          exact ih h

theorem lookup_setdefault_self (l : List (String × String)) (k v : String) :
    (setdefault l k v).lookup k = some ((l.lookup k).getD v) := by
  unfold setdefault
  cases h : l.lookup k with
  | some w => simp [h]
  | none =>
      rw [lookup_append_none l _ k h]
      simp [List.lookup]

theorem lookup_setdefault_other (l : List (String × String)) (k v k2 : String)
    (hne : (k2 == k) = false) :
    (setdefault l k v).lookup k2 = l.lookup k2 := by
  unfold setdefault
  cases h : l.lookup k with
  | some w => rfl
  | none =>
      cases h2 : l.lookup k2 with
      | some w2 => rw [lookup_append_some l _ k2 w2 h2]
      | none =>
          rw [lookup_append_none l _ k2 h2]
          simp [List.lookup, hne]

theorem lookup_setdefault_preserve (l : List (String × String)) (k v k2 v2 : String)
    (h : l.lookup k2 = some v2) : (setdefault l k v).lookup k2 = some v2 := by
  unfold setdefault
  cases hl : l.lookup k with
  | some w => exact h
  | none => exact lookup_append_some l _ k2 v2 h

/-- C9: at startup the settings loader completes the stored General section
(none models a file that is absent or unreadable, which the source treats as
an empty record): each of the keys theme, font_family, font_size, language
ends bound to its stored value when present and to its default (light,
Segoe UI, 12, en) when missing, every other stored key keeps its value, and
the returned record is what the source immediately writes back to storage. -/
theorem settings_load_defaults (stored : Option (List (String × String))) (k v : String) :
    (load_or_create_settings stored).lookup ("theme") =
      some (((stored.getD []).lookup ("theme")).getD ("light")) ∧
    (load_or_create_settings stored).lookup ("font_family") =
      some (((stored.getD []).lookup ("font_family")).getD ("Segoe UI")) ∧
    (load_or_create_settings stored).lookup ("font_size") =
      some (((stored.getD []).lookup ("font_size")).getD ("12")) ∧
    (load_or_create_settings stored).lookup ("language") =
      some (((stored.getD []).lookup ("language")).getD ("en")) ∧
    ((stored.getD []).lookup k = some v →
      (load_or_create_settings stored).lookup k = some v) := by
  have e : load_or_create_settings stored =
      setdefault (setdefault (setdefault (setdefault (stored.getD []) ("theme") ("light"))
        ("font_family") ("Segoe UI")) ("font_size") ("12")) ("language") ("en") := rfl
  rw [e]
  refine ⟨?_, ?_, ?_, ?_, ?_⟩
  · rw [lookup_setdefault_other _ _ _ _ (by decide),
      lookup_setdefault_other _ _ _ _ (by decide),
      lookup_setdefault_other _ _ _ _ (by decide),
      lookup_setdefault_self]
  · rw [lookup_setdefault_other _ _ _ _ (by decide),
      lookup_setdefault_other _ _ _ _ (by decide),
      lookup_setdefault_self,
      lookup_setdefault_other _ _ _ _ (by decide)]
  · rw [lookup_setdefault_other _ _ _ _ (by decide),
      lookup_setdefault_self,
      lookup_setdefault_other _ _ _ _ (by decide),
      lookup_setdefault_other _ _ _ _ (by decide)]
  · rw [lookup_setdefault_self,
      lookup_setdefault_other _ _ _ _ (by decide),
      lookup_setdefault_other _ _ _ _ (by decide),
      lookup_setdefault_other _ _ _ _ (by decide)]
  · intro h
    exact lookup_setdefault_preserve _ _ _ _ _
      (lookup_setdefault_preserve _ _ _ _ _
        (lookup_setdefault_preserve _ _ _ _ _
          (lookup_setdefault_preserve _ _ _ _ _ h)))

theorem settings_load_defaults_witness :
    (load_or_create_settings (some [("theme", "dark"), ("custom", "x")])).lookup ("theme") =
      some ("dark") ∧
    (load_or_create_settings (some [("theme", "dark"), ("custom", "x")])).lookup ("font_size") =
      some ("12") ∧
    (load_or_create_settings (some [("theme", "dark"), ("custom", "x")])).lookup ("custom") =
      some ("x") :=
  ⟨(settings_load_defaults (some [("theme", "dark"), ("custom", "x")]) ("custom") ("x")).1,
   (settings_load_defaults (some [("theme", "dark"), ("custom", "x")]) ("custom") ("x")).2.2.1,
   (settings_load_defaults (some [("theme", "dark"), ("custom", "x")]) ("custom")
      ("x")).2.2.2.2 (by decide)⟩

/-- Pages present after a successful EPUB load: one html page per document
item, and the placeholder page exactly when there were no items. -/
theorem load_epub_pages_of_ok (s : ViewerState) (inp : EpubInput)
    (h : (load_epub s inp).2 = false) :
    (load_epub s inp).1.pages ≠ [] ∧
    (inp.docItems = [] →
      (load_epub s inp).1.pages = [Page.html ("<h3>No readable content found.</h3>")]) := by
  unfold load_epub at *
  dsimp only at *
  split_ifs at * with hr
  rcases hLP : loadEpubPages
      { s with current_book_type := some ("epub"), pages := [],
               current_font_size := s.base_font_size,
               epub_temp_dir := some (inp.tempDir) } inp.docItems with ⟨s2, b⟩
  cases b with
  | false =>
      dsimp only at h ⊢
      split_ifs with hp
      · exact ⟨by simp, fun _ => rfl⟩
      · refine ⟨hp, fun hi => ?_⟩
        rw [hi] at hLP
        have : s2.pages = [] := by
          have := congrArg (fun p => p.1.pages) hLP
          simpa using this.symm
        exact absurd this hp
  | true =>
      rw [hLP] at h
      simp at h

/-- C10: a successful EPUB open always yields a non empty page list (a single
placeholder page is appended when the container had no readable document
items), and the page index is reset to 0, so index 0 names an existing page
after every successful EPUB open. -/
theorem epub_open_nonempty_pages (s : ViewerState) (path : String) (pinp : PdfInput)
    (einp : EpubInput) (he : (load_epub s einp).2 = false) :
    (open_file s path (".epub") pinp einp).current_index = 0 ∧
    0 < (open_file s path (".epub") pinp einp).pages.length ∧
    (einp.docItems = [] →
      (open_file s path (".epub") pinp einp).pages =
        [Page.html ("<h3>No readable content found.</h3>")]) := by
  have hpg := load_epub_pages_of_ok s einp he
  rcases hE : load_epub s einp with ⟨s2, b2⟩
  rw [hE] at he hpg
  dsimp only at he hpg
  subst he
  have e2 : open_file s path (".epub") pinp einp = finishOpen s2 path := by
    unfold open_file
    rw [if_neg (by decide), if_pos rfl, hE]
  have ff := finishOpen_fields s2 path
  refine ⟨by rw [e2]; exact ff.1, ?_, fun hi => ?_⟩
  · rw [e2, ff.2.1]
    exact List.length_pos.mpr hpg.1
  · rw [e2, ff.2.1]
    exact hpg.2 hi

theorem epub_open_nonempty_pages_witness :
    (open_file initialState ("e.epub") (".epub") pdfTen epubEmptyInput).current_index = 0 ∧
    0 < (open_file initialState ("e.epub") (".epub") pdfTen epubEmptyInput).pages.length ∧
    (epubEmptyInput.docItems = [] →
      (open_file initialState ("e.epub") (".epub") pdfTen epubEmptyInput).pages =
        [Page.html ("<h3>No readable content found.</h3>")]) :=
  epub_open_nonempty_pages initialState ("e.epub") pdfTen epubEmptyInput (by decide)

end FeReader
